import Mathlib

/-!
Verification of the OpenRCT2 tick scheduler and action pipeline
(`src/openrct2/Context.cpp`, `src/openrct2/actions/StaffSetOrdersAction.h`).

Wall-clock time is embedded as exact rationals (the source uses `float`
seconds); machine casts are made explicit where they matter.  Stateful code
becomes explicit state passing, and side effects are recorded as traces of
events so that ordering and occurrence claims are statements about lists.
-/

namespace OpenRCT2

/-- The timing constants consumed by the scheduler (`kGameUpdateTimeMS`,
`kGameUpdateMaxThreshold`).  They are configuration inputs of the loop in
`Context.cpp`; the tick duration is positive (e.g. 25 ms). -/
structure SchedConsts where
  tickMS : ℚ
  maxThreshold : ℚ
  tick_pos : 0 < tickMS

/-- The global flags read by `ShouldDraw` / `ShouldRunVariableFrame`:
`gOpenRCT2Headless`, `_uiContext->IsMinimised()`, `gConfigGeneral.UncapFPS`,
`gGameSpeed`. -/
structure SchedCfg where
  headless : Bool
  minimised : Bool
  uncapFPS : Bool
  gameSpeed : Nat

/-- `Context::ShouldDraw` (Context.cpp:1004-1011). -/
def ShouldDraw (cfg : SchedCfg) : Bool :=
  if cfg.headless then false
  else if cfg.minimised then false
  else true

/-- `Context::ShouldRunVariableFrame` (Context.cpp:1013-1022). -/
def ShouldRunVariableFrame (cfg : SchedCfg) : Bool :=
  if !ShouldDraw cfg then false
  else if !cfg.uncapFPS then false
  else if 4 < cfg.gameSpeed then false
  else true

/-- The mutable scheduler state of `Context`: `_ticksAccumulator`,
`_realtimeAccumulator`, `gCurrentRealTimeTicks`, `_variableFrame`. -/
structure SchedSt where
  ticksAccumulator : ℚ
  realtimeAccumulator : ℚ
  currentRealTimeTicks : Nat
  variableFrame : Bool

/-- Observable events of one poll of the game loop, in program order. -/
inductive Ev where
  | processMessages
  | sleep (ms : Nat)
  | preTick
  | tick
  | postTick
  | handleInput
  | windowUpdateAll
  | tween (alpha : ℚ)
  | draw
  | restore
  | reset
  deriving DecidableEq, Repr

/-- `static_cast<uint32_t>` of a nonnegative `float`: truncation toward zero,
reduced mod 2^32. -/
def ratToUInt32 (q : ℚ) : Nat :=
  (⌊q⌋).toNat % 2 ^ 32

/-- The real-time drain loop of `Context::UpdateTimeAccumulators`
(Context.cpp:1090-1094): `while (acc >= kGameUpdateTimeMS) { n++; acc -= kGameUpdateTimeMS; }`.
Returns the number of iterations and the remaining accumulator. -/
def timeDrain (c : SchedConsts) (acc : ℚ) : Nat × ℚ :=
  if h : c.tickMS ≤ acc then
    let rest := timeDrain c (acc - c.tickMS)
    (rest.1 + 1, rest.2)
  else
    (0, acc)
termination_by (⌊acc / c.tickMS⌋).toNat
decreasing_by
  have hpos := c.tick_pos
  have h1 : (1 : ℚ) ≤ acc / c.tickMS := (one_le_div hpos).mpr h
  have h2 : (acc - c.tickMS) / c.tickMS = acc / c.tickMS - 1 := by
    rw [sub_div, div_self (ne_of_gt hpos)]
  have h3 : (1 : ℤ) ≤ ⌊acc / c.tickMS⌋ := by
    exact_mod_cast Int.le_floor.mpr (by exact_mod_cast h1)
  rw [h2, Int.floor_sub_one]
  omega

/-- `Context::UpdateTimeAccumulators` (Context.cpp:1082-1095). -/
def UpdateTimeAccumulators (c : SchedConsts) (timeScale : ℚ) (s : SchedSt)
    (deltaTime : ℚ) : SchedSt :=
  let scaledDeltaTime := deltaTime * timeScale
  let ticksAcc := min (s.ticksAccumulator + scaledDeltaTime) c.maxThreshold
  let rt := min (s.realtimeAccumulator + deltaTime) c.maxThreshold
  let d := timeDrain c rt
  { s with
    ticksAccumulator := ticksAcc
    realtimeAccumulator := d.2
    currentRealTimeTicks := s.currentRealTimeTicks + d.1 }

/-- The tick drain loop shared by `RunFixedFrame` (Context.cpp:1110-1115) and
`RunVariableFrame` (Context.cpp:1135-1148):
`while (acc >= kGameUpdateTimeMS) { pre; Tick(); acc -= kGameUpdateTimeMS; post; }`.
`pre`/`post` are the per-iteration tweener events (empty in the fixed loop).
Returns iteration count, remaining accumulator and the emitted trace. -/
def tickLoop (c : SchedConsts) (pre post : List Ev) (acc : ℚ) :
    Nat × ℚ × List Ev :=
  if h : c.tickMS ≤ acc then
    let rest := tickLoop c pre post (acc - c.tickMS)
    (rest.1 + 1, rest.2.1, (pre ++ [Ev.tick] ++ post) ++ rest.2.2)
  else
    (0, acc, [])
termination_by (⌊acc / c.tickMS⌋).toNat
decreasing_by
  have hpos := c.tick_pos
  have h1 : (1 : ℚ) ≤ acc / c.tickMS := (one_le_div hpos).mpr h
  have h2 : (acc - c.tickMS) / c.tickMS = acc / c.tickMS - 1 := by
    rw [sub_div, div_self (ne_of_gt hpos)]
  have h3 : (1 : ℤ) ≤ ⌊acc / c.tickMS⌋ := by
    exact_mod_cast Int.le_floor.mpr (by exact_mod_cast h1)
  rw [h2, Int.floor_sub_one]
  omega

/-- `Context::RunFixedFrame` (Context.cpp:1097-1124). -/
def RunFixedFrame (c : SchedConsts) (cfg : SchedCfg) (s : SchedSt) :
    SchedSt × List Ev :=
  if s.ticksAccumulator < c.tickMS then
    let sleepTimeSec := c.tickMS - s.ticksAccumulator
    (s, [Ev.processMessages, Ev.sleep (ratToUInt32 (sleepTimeSec * 1000))])
  else
    let d := tickLoop c [] [] s.ticksAccumulator
    ({ s with ticksAccumulator := d.2.1 },
      Ev.processMessages :: d.2.2 ++ [Ev.handleInput, Ev.windowUpdateAll]
        ++ (if ShouldDraw cfg then [Ev.draw] else []))

/-- `Context::RunVariableFrame` (Context.cpp:1126-1160). -/
def RunVariableFrame (c : SchedConsts) (cfg : SchedCfg) (s : SchedSt) :
    SchedSt × List Ev :=
  let shouldDraw := ShouldDraw cfg
  let d := tickLoop c (if shouldDraw then [Ev.preTick] else [])
      (if shouldDraw then [Ev.postTick] else []) s.ticksAccumulator
  ({ s with ticksAccumulator := d.2.1 },
    Ev.processMessages :: d.2.2 ++ [Ev.handleInput, Ev.windowUpdateAll]
      ++ (if shouldDraw then [Ev.tween (min (d.2.1 / c.tickMS) 1), Ev.draw]
          else []))

/-- `Context::RunFrame` (Context.cpp:1051-1080): one poll of the game loop.
The elapsed wall-clock delta is a parameter (the `Timer` collaborator). -/
def RunFrame (c : SchedConsts) (cfg : SchedCfg) (timeScale : ℚ) (s : SchedSt)
    (deltaTime : ℚ) : SchedSt × List Ev :=
  let useVariableFrame := ShouldRunVariableFrame cfg
  let modeChanged := s.variableFrame != useVariableFrame
  let s1 := { s with variableFrame := useVariableFrame }
  let s2 := UpdateTimeAccumulators c timeScale s1 deltaTime
  let r := if useVariableFrame then RunVariableFrame c cfg s2
           else RunFixedFrame c cfg s2
  (r.1, (if modeChanged then [Ev.restore, Ev.reset] else []) ++ r.2)

/-- Repeated polls of `RunFrame`, one per wall-clock delta, concatenating the
emitted traces (the `do { RunFrame(); }` loop of `RunGameLoop`). -/
def runPolls (c : SchedConsts) (cfg : SchedCfg) (timeScale : ℚ) :
    SchedSt → List ℚ → SchedSt × List Ev
  | s, [] => (s, [])
  | s, d :: ds =>
    let r := RunFrame c cfg timeScale s d
    let rest := runPolls c cfg timeScale r.1 ds
    (rest.1, r.2 ++ rest.2)

/-! ### Drain-loop lemmas -/

theorem timeDrain_spec (c : SchedConsts) (acc : ℚ) :
    ((timeDrain c acc).1 : ℚ) * c.tickMS + (timeDrain c acc).2 = acc ∧
    (timeDrain c acc).2 < c.tickMS ∧
    (0 ≤ acc → 0 ≤ (timeDrain c acc).2) := by
  induction acc using timeDrain.induct c with
  | case1 acc h ih =>
    rw [timeDrain, dif_pos h]
    obtain ⟨ih1, ih2, ih3⟩ := ih
    refine ⟨?_, ih2, fun _ => ih3 (by linarith [c.tick_pos])⟩
    push_cast
    linarith [ih1]
  | case2 acc h =>
    rw [timeDrain, dif_neg h]
    exact ⟨by simp, by linarith [not_le.mp h], fun h0 => h0⟩

theorem timeDrain_snd_le (c : SchedConsts) (acc : ℚ) :
    (timeDrain c acc).2 ≤ acc := by
  obtain ⟨h1, -, -⟩ := timeDrain_spec c acc
  have hn : (0 : ℚ) ≤ ((timeDrain c acc).1 : ℚ) * c.tickMS :=
    mul_nonneg (by positivity) c.tick_pos.le
  linarith

theorem tickLoop_spec (c : SchedConsts) (pre post : List Ev) (acc : ℚ) :
    ((tickLoop c pre post acc).1 : ℚ) * c.tickMS + (tickLoop c pre post acc).2.1 = acc ∧
    (tickLoop c pre post acc).2.1 < c.tickMS ∧
    (0 ≤ acc → 0 ≤ (tickLoop c pre post acc).2.1) := by
  induction acc using tickLoop.induct c pre post with
  | case1 acc h ih =>
    rw [tickLoop, dif_pos h]
    obtain ⟨ih1, ih2, ih3⟩ := ih
    refine ⟨?_, ih2, fun _ => ih3 (by linarith [c.tick_pos])⟩
    push_cast
    linarith [ih1]
  | case2 acc h =>
    rw [tickLoop, dif_neg h]
    exact ⟨by simp, by linarith [not_le.mp h], fun h0 => h0⟩

theorem tickLoop_count (c : SchedConsts) (pre post : List Ev) (acc : ℚ)
    (hpre : Ev.tick ∉ pre) (hpost : Ev.tick ∉ post) :
    ((tickLoop c pre post acc).2.2).count Ev.tick = (tickLoop c pre post acc).1 := by
  induction acc using tickLoop.induct c pre post with
  | case1 acc h ih =>
    rw [tickLoop, dif_pos h]
    simp [List.count_append, List.count_eq_zero.mpr hpre, List.count_eq_zero.mpr hpost, ih]
  | case2 acc h =>
    rw [tickLoop, dif_neg h]
    simp

/-! ### C2: accumulators are clamped to the maximum threshold -/

/-- C2: After any single poll's accumulator update
(`Context::UpdateTimeAccumulators`), neither the ticks accumulator nor the
realtime accumulator exceeds the configured maximum threshold, for every
input delta magnitude. -/
theorem accumulators_never_exceed_threshold (c : SchedConsts) (timeScale : ℚ)
    (s : SchedSt) (deltaTime : ℚ) :
    (UpdateTimeAccumulators c timeScale s deltaTime).ticksAccumulator ≤ c.maxThreshold ∧
    (UpdateTimeAccumulators c timeScale s deltaTime).realtimeAccumulator ≤ c.maxThreshold := by
  constructor
  · exact min_le_right _ _
  · have h := timeDrain_snd_le c (min (s.realtimeAccumulator + deltaTime) c.maxThreshold)
    have h2 : min (s.realtimeAccumulator + deltaTime) c.maxThreshold ≤ c.maxThreshold :=
      min_le_right _ _
    simpa [UpdateTimeAccumulators] using le_trans h h2

/-! ### C8: when the scheduler chooses Variable frame mode -/

/-- C8: On every poll, Variable frame mode is selected if and only if
rendering is enabled (not headless), the display is not minimized, uncapped
frame rate is configured, and the game-speed multiplier is at most 4
(`Context::ShouldRunVariableFrame`). -/
theorem variable_frame_mode_iff (cfg : SchedCfg) :
    ShouldRunVariableFrame cfg = true ↔
      cfg.headless = false ∧ cfg.minimised = false ∧ cfg.uncapFPS = true ∧
        cfg.gameSpeed ≤ 4 := by
  rcases cfg with ⟨h, m, u, g⟩
  cases h <;> cases m <;> cases u <;>
    simp [ShouldRunVariableFrame, ShouldDraw]

/-! ### Per-poll tick accounting -/

theorem count_tick_ite_tween (b : Bool) (q : ℚ) :
    (if b then [Ev.tween q, Ev.draw] else []).count Ev.tick = 0 := by
  cases b <;> simp

theorem not_tick_ite_preTick (b : Bool) :
    Ev.tick ∉ (if b then [Ev.preTick] else []) := by
  cases b <;> simp

theorem not_tick_ite_postTick (b : Bool) :
    Ev.tick ∉ (if b then [Ev.postTick] else []) := by
  cases b <;> simp

theorem RunVariableFrame_tick_count (c : SchedConsts) (cfg : SchedCfg)
    (s : SchedSt) (h0 : 0 ≤ s.ticksAccumulator) :
    ((RunVariableFrame c cfg s).2.count Ev.tick : ℚ) * c.tickMS
        + (RunVariableFrame c cfg s).1.ticksAccumulator = s.ticksAccumulator
  ∧ 0 ≤ (RunVariableFrame c cfg s).1.ticksAccumulator
  ∧ (RunVariableFrame c cfg s).1.ticksAccumulator < c.tickMS := by
  obtain ⟨e1, e2, e3⟩ := tickLoop_spec c (if ShouldDraw cfg then [Ev.preTick] else [])
    (if ShouldDraw cfg then [Ev.postTick] else []) s.ticksAccumulator
  have hcnt := tickLoop_count c (if ShouldDraw cfg then [Ev.preTick] else [])
    (if ShouldDraw cfg then [Ev.postTick] else []) s.ticksAccumulator
    (not_tick_ite_preTick _) (not_tick_ite_postTick _)
  refine ⟨?_, e3 h0, e2⟩
  simp only [RunVariableFrame, List.count_cons, List.count_append,
    count_tick_ite_tween, hcnt]
  simpa using e1

theorem RunFixedFrame_tick_count (c : SchedConsts) (cfg : SchedCfg)
    (s : SchedSt) (h0 : 0 ≤ s.ticksAccumulator) :
    ((RunFixedFrame c cfg s).2.count Ev.tick : ℚ) * c.tickMS
        + (RunFixedFrame c cfg s).1.ticksAccumulator = s.ticksAccumulator
  ∧ 0 ≤ (RunFixedFrame c cfg s).1.ticksAccumulator
  ∧ (RunFixedFrame c cfg s).1.ticksAccumulator < c.tickMS := by
  rw [RunFixedFrame]
  split
  · next hlt =>
    refine ⟨by simp, h0, hlt⟩
  · next hge =>
    obtain ⟨e1, e2, e3⟩ := tickLoop_spec c [] [] s.ticksAccumulator
    have hcnt := tickLoop_count c [] [] s.ticksAccumulator (by simp) (by simp)
    refine ⟨?_, e3 h0, e2⟩
    simp only [List.count_cons, List.count_append, hcnt]
    have : (if ShouldDraw cfg then [Ev.draw] else []).count Ev.tick = 0 := by
      split <;> simp
    simp only [this]
    simpa using e1

theorem count_tick_modeSwitch (b : Bool) (l : List Ev) :
    ((if b then [Ev.restore, Ev.reset] else []) ++ l).count Ev.tick
      = l.count Ev.tick := by
  cases b <;> simp

theorem RunFrame_tick_count (c : SchedConsts) (cfg : SchedCfg) (ts : ℚ)
    (s : SchedSt) (d : ℚ)
    (h0 : 0 ≤ s.ticksAccumulator)
    (hclamp : s.ticksAccumulator + d * ts ≤ c.maxThreshold)
    (hd : 0 ≤ d * ts) :
    ((RunFrame c cfg ts s d).2.count Ev.tick : ℚ) * c.tickMS
        + (RunFrame c cfg ts s d).1.ticksAccumulator
        = s.ticksAccumulator + d * ts
  ∧ 0 ≤ (RunFrame c cfg ts s d).1.ticksAccumulator
  ∧ (RunFrame c cfg ts s d).1.ticksAccumulator < c.tickMS := by
  have hacc2 : (UpdateTimeAccumulators c ts
      { s with variableFrame := ShouldRunVariableFrame cfg } d).ticksAccumulator
      = s.ticksAccumulator + d * ts := by
    simp only [UpdateTimeAccumulators]
    exact min_eq_left hclamp
  have h02 : 0 ≤ (UpdateTimeAccumulators c ts
      { s with variableFrame := ShouldRunVariableFrame cfg } d).ticksAccumulator := by
    rw [hacc2]; linarith
  rw [RunFrame]
  simp only [count_tick_modeSwitch]
  split
  · obtain ⟨e1, e2, e3⟩ := RunVariableFrame_tick_count c cfg
      (UpdateTimeAccumulators c ts
        { s with variableFrame := ShouldRunVariableFrame cfg } d) h02
    exact ⟨by rw [e1, hacc2], e2, e3⟩
  · obtain ⟨e1, e2, e3⟩ := RunFixedFrame_tick_count c cfg
      (UpdateTimeAccumulators c ts
        { s with variableFrame := ShouldRunVariableFrame cfg } d) h02
    exact ⟨by rw [e1, hacc2], e2, e3⟩

/-! ### C1: the scheduler drains exactly floor(sum * timeScale / tickDuration) ticks -/

theorem floor_div_of_decomp (t a r : ℚ) (n : ℕ) (ht : 0 < t)
    (hd : (n : ℚ) * t + r = a) (hr0 : 0 ≤ r) (hrt : r < t) :
    ⌊a / t⌋ = (n : ℤ) := by
  rw [Int.floor_eq_iff]
  constructor
  · rw [le_div_iff ht]; push_cast; nlinarith
  · rw [div_lt_iff ht]; push_cast; nlinarith

theorem runPolls_tick_count (c : SchedConsts) (cfg : SchedCfg) (ts : ℚ)
    (ds : List ℚ) (s : SchedSt)
    (h0 : 0 ≤ s.ticksAccumulator) (h1 : s.ticksAccumulator < c.tickMS)
    (hts : 0 ≤ ts)
    (hds : ∀ d ∈ ds, 0 ≤ d ∧ d * ts + c.tickMS ≤ c.maxThreshold) :
    ((runPolls c cfg ts s ds).2.count Ev.tick : ℚ) * c.tickMS
        + (runPolls c cfg ts s ds).1.ticksAccumulator
        = s.ticksAccumulator + ds.sum * ts
  ∧ 0 ≤ (runPolls c cfg ts s ds).1.ticksAccumulator
  ∧ (runPolls c cfg ts s ds).1.ticksAccumulator < c.tickMS := by
  induction ds generalizing s with
  | nil =>
    refine ⟨?_, h0, h1⟩
    simp [runPolls]
  | cons d ds ih =>
    obtain ⟨hd0, hdc⟩ := hds d (by simp)
    have hdts : 0 ≤ d * ts := mul_nonneg hd0 hts
    have hclamp : s.ticksAccumulator + d * ts ≤ c.maxThreshold := by linarith
    obtain ⟨p1, p2, p3⟩ := RunFrame_tick_count c cfg ts s d h0 hclamp hdts
    obtain ⟨q1, q2, q3⟩ := ih (RunFrame c cfg ts s d).1 p2 p3
      (fun e he => hds e (by simp [he]))
    refine ⟨?_, q2, q3⟩
    simp only [runPolls, List.count_append, List.sum_cons]
    push_cast
    linear_combination p1 + q1

/-- C1: Starting from an empty ticks accumulator, for every sequence of
wall-clock deltas whose scaled sum exceeds one tick duration (and which stays
under the accumulator clamp), the scheduler runs exactly
`floor(sum * timeScale / tickDuration)` logical ticks — never more, never
fewer — in both Fixed and Variable frame modes (`cfg` is arbitrary), and the
remainder `sum * timeScale - ticks * tickDuration` stays in the ticks
accumulator. -/
theorem scheduler_runs_floor_ticks (c : SchedConsts) (cfg : SchedCfg) (ts : ℚ)
    (s : SchedSt) (ds : List ℚ)
    (hacc : s.ticksAccumulator = 0)
    (hts : 0 ≤ ts)
    (hds : ∀ d ∈ ds, 0 ≤ d ∧ d * ts + c.tickMS ≤ c.maxThreshold)
    (hsum : c.tickMS < ds.sum * ts) :
    ((runPolls c cfg ts s ds).2.count Ev.tick : ℤ) = ⌊ds.sum * ts / c.tickMS⌋
  ∧ (runPolls c cfg ts s ds).1.ticksAccumulator
      = ds.sum * ts - (⌊ds.sum * ts / c.tickMS⌋ : ℚ) * c.tickMS := by
  obtain ⟨e1, e2, e3⟩ := runPolls_tick_count c cfg ts ds s
    (by rw [hacc]) (by rw [hacc]; exact c.tick_pos) hts hds
  rw [hacc] at e1
  have hfl : ⌊ds.sum * ts / c.tickMS⌋
      = ((runPolls c cfg ts s ds).2.count Ev.tick : ℤ) :=
    floor_div_of_decomp c.tickMS _ _ _ c.tick_pos (by linarith) e2 e3
  refine ⟨hfl.symm, ?_⟩
  rw [hfl]
  push_cast
  linarith

/-- A concrete instance of the scheduler constants: tick duration 25 ms,
maximum accumulator threshold 1000 ms. -/
def exampleConsts : SchedConsts := ⟨25, 1000, by norm_num⟩

/-- A headless configuration (Fixed frame mode). -/
def exampleCfg : SchedCfg := ⟨true, false, false, 1⟩

/-- The scheduler state at startup. -/
def initSchedSt : SchedSt := ⟨0, 0, 0, false⟩

/-- Witness for C1: tick duration 25 ms, timeScale 1.0, three polls of
10 ms each — exactly one tick runs and 5 ms remains in the accumulator. -/
theorem scheduler_runs_floor_ticks_witness :
    (initSchedSt.ticksAccumulator = 0
      ∧ (0 : ℚ) ≤ 1
      ∧ (∀ d ∈ [(10 : ℚ), 10, 10],
          0 ≤ d ∧ d * 1 + exampleConsts.tickMS ≤ exampleConsts.maxThreshold)
      ∧ exampleConsts.tickMS < [(10 : ℚ), 10, 10].sum * 1)
  ∧ (runPolls exampleConsts exampleCfg 1 initSchedSt [10, 10, 10]).2.count Ev.tick = 1
  ∧ (runPolls exampleConsts exampleCfg 1 initSchedSt [10, 10, 10]).1.ticksAccumulator = 5 := by
  have h := scheduler_runs_floor_ticks exampleConsts exampleCfg 1 initSchedSt
    [10, 10, 10] rfl (by norm_num)
    (by intro d hd; fin_cases hd <;> norm_num [exampleConsts])
    (by norm_num [exampleConsts])
  have hfl : ⌊[(10 : ℚ), 10, 10].sum * 1 / exampleConsts.tickMS⌋ = 1 := by
    norm_num [exampleConsts]
  obtain ⟨h1, h2⟩ := h
  rw [hfl] at h1 h2
  refine ⟨⟨rfl, by norm_num, ?_, ?_⟩, ?_, ?_⟩
  · intro d hd; fin_cases hd <;> norm_num [exampleConsts]
  · norm_num [exampleConsts]
  · exact_mod_cast h1
  · rw [h2]; norm_num [exampleConsts]

/-! ### C9: realtime accumulator runs at wall-clock rate, independent of timeScale -/

theorem RunFixedFrame_realtime_fields (c : SchedConsts) (cfg : SchedCfg) (s : SchedSt) :
    (RunFixedFrame c cfg s).1.realtimeAccumulator = s.realtimeAccumulator ∧
    (RunFixedFrame c cfg s).1.currentRealTimeTicks = s.currentRealTimeTicks := by
  rw [RunFixedFrame]
  split <;> simp

theorem RunVariableFrame_realtime_fields (c : SchedConsts) (cfg : SchedCfg) (s : SchedSt) :
    (RunVariableFrame c cfg s).1.realtimeAccumulator = s.realtimeAccumulator ∧
    (RunVariableFrame c cfg s).1.currentRealTimeTicks = s.currentRealTimeTicks := by
  simp [RunVariableFrame]

theorem RunFrame_realtime (c : SchedConsts) (cfg : SchedCfg) (ts : ℚ)
    (s : SchedSt) (d : ℚ) :
    (RunFrame c cfg ts s d).1.realtimeAccumulator
      = (timeDrain c (min (s.realtimeAccumulator + d) c.maxThreshold)).2
  ∧ (RunFrame c cfg ts s d).1.currentRealTimeTicks
      = s.currentRealTimeTicks
        + (timeDrain c (min (s.realtimeAccumulator + d) c.maxThreshold)).1 := by
  simp only [RunFrame]
  split
  · exact ⟨by rw [(RunVariableFrame_realtime_fields _ _ _).1]; simp [UpdateTimeAccumulators],
      by rw [(RunVariableFrame_realtime_fields _ _ _).2]; simp [UpdateTimeAccumulators]⟩
  · exact ⟨by rw [(RunFixedFrame_realtime_fields _ _ _).1]; simp [UpdateTimeAccumulators],
      by rw [(RunFixedFrame_realtime_fields _ _ _).2]; simp [UpdateTimeAccumulators]⟩

theorem runPolls_realtime_scale_indep (c : SchedConsts) (cfg : SchedCfg)
    (ts ts' : ℚ) (ds : List ℚ) (s s' : SchedSt)
    (hr : s.realtimeAccumulator = s'.realtimeAccumulator)
    (hc : s.currentRealTimeTicks = s'.currentRealTimeTicks) :
    (runPolls c cfg ts s ds).1.realtimeAccumulator
        = (runPolls c cfg ts' s' ds).1.realtimeAccumulator
  ∧ (runPolls c cfg ts s ds).1.currentRealTimeTicks
        = (runPolls c cfg ts' s' ds).1.currentRealTimeTicks := by
  induction ds generalizing s s' with
  | nil => exact ⟨by simpa [runPolls] using hr, by simpa [runPolls] using hc⟩
  | cons d ds ih =>
    simp only [runPolls]
    exact ih _ _
      (by rw [(RunFrame_realtime c cfg ts s d).1, (RunFrame_realtime c cfg ts' s' d).1, hr])
      (by rw [(RunFrame_realtime c cfg ts s d).2, (RunFrame_realtime c cfg ts' s' d).2, hr, hc])

theorem timeDrain_count_eq_floor (c : SchedConsts) (acc : ℚ) (h : 0 ≤ acc) :
    ((timeDrain c acc).1 : ℤ) = ⌊acc / c.tickMS⌋ := by
  obtain ⟨e1, e2, e3⟩ := timeDrain_spec c acc
  exact (floor_div_of_decomp c.tickMS acc _ _ c.tick_pos e1 (e3 h) e2).symm

/-- C9: On every poll the ticks accumulator increases by `delta * timeScale`
(then clamped), while the realtime accumulator increases by the unscaled
delta (then clamped) and is drained in fixed-size units, each drained unit
incrementing the real-time counter; hence for any fixed sequence of deltas
the number of real-time counter increments is the same for every timeScale. -/
theorem realtime_independent_of_timescale (c : SchedConsts) (cfg : SchedCfg)
    (ts ts' : ℚ) (s : SchedSt) (ds : List ℚ)
    (hT : 0 ≤ c.maxThreshold) (hr : 0 ≤ s.realtimeAccumulator) :
    (∀ d, (UpdateTimeAccumulators c ts s d).ticksAccumulator
        = min (s.ticksAccumulator + d * ts) c.maxThreshold)
  ∧ (∀ d, 0 ≤ d →
      ((UpdateTimeAccumulators c ts s d).currentRealTimeTicks : ℤ)
        = s.currentRealTimeTicks
          + ⌊min (s.realtimeAccumulator + d) c.maxThreshold / c.tickMS⌋)
  ∧ (runPolls c cfg ts s ds).1.currentRealTimeTicks
      = (runPolls c cfg ts' s ds).1.currentRealTimeTicks := by
  refine ⟨fun d => by simp [UpdateTimeAccumulators], fun d hd => ?_,
    (runPolls_realtime_scale_indep c cfg ts ts' ds s s rfl rfl).2⟩
  have hmin : 0 ≤ min (s.realtimeAccumulator + d) c.maxThreshold :=
    le_min (by linarith) hT
  have hfl := timeDrain_count_eq_floor c
    (min (s.realtimeAccumulator + d) c.maxThreshold) hmin
  simp only [UpdateTimeAccumulators]
  push_cast
  omega

/-- Witness for C9: concrete polls with timeScale 2 versus timeScale 3. -/
theorem realtime_independent_of_timescale_witness :
    ((0 : ℚ) ≤ exampleConsts.maxThreshold
      ∧ (0 : ℚ) ≤ initSchedSt.realtimeAccumulator)
  ∧ ((∀ d, (UpdateTimeAccumulators exampleConsts 2 initSchedSt d).ticksAccumulator
        = min (initSchedSt.ticksAccumulator + d * 2) exampleConsts.maxThreshold)
    ∧ (∀ d, 0 ≤ d →
        ((UpdateTimeAccumulators exampleConsts 2 initSchedSt d).currentRealTimeTicks : ℤ)
          = initSchedSt.currentRealTimeTicks
            + ⌊min (initSchedSt.realtimeAccumulator + d) exampleConsts.maxThreshold
                / exampleConsts.tickMS⌋)
    ∧ (runPolls exampleConsts exampleCfg 2 initSchedSt [10, 30]).1.currentRealTimeTicks
        = (runPolls exampleConsts exampleCfg 3 initSchedSt [10, 30]).1.currentRealTimeTicks) :=
  ⟨⟨by norm_num [exampleConsts], by norm_num [initSchedSt]⟩,
    realtime_independent_of_timescale exampleConsts exampleCfg 2 3 initSchedSt [10, 30]
      (by norm_num [exampleConsts]) (by norm_num [initSchedSt])⟩

/-! ### C7: Fixed mode sleeps for the remaining time when below one tick -/

/-- C7: In Fixed mode, on any poll where the ticks accumulator is below one
tick duration, `RunFixedFrame` sleeps for the remaining time until a full
tick is accumulated (the value handed to `Platform::Sleep`, milliseconds,
truncated by the `uint32_t` cast) and returns without running a tick:
no tick executes and the input/window/draw phases are skipped. -/
theorem fixed_frame_sleeps_when_below_tick (c : SchedConsts) (cfg : SchedCfg)
    (s : SchedSt) (h : s.ticksAccumulator < c.tickMS) :
    RunFixedFrame c cfg s
      = (s, [Ev.processMessages,
             Ev.sleep (ratToUInt32 ((c.tickMS - s.ticksAccumulator) * 1000))])
  ∧ (RunFixedFrame c cfg s).2.count Ev.tick = 0
  ∧ Ev.handleInput ∉ (RunFixedFrame c cfg s).2
  ∧ Ev.windowUpdateAll ∉ (RunFixedFrame c cfg s).2
  ∧ Ev.draw ∉ (RunFixedFrame c cfg s).2 := by
  have h1 : RunFixedFrame c cfg s
      = (s, [Ev.processMessages,
             Ev.sleep (ratToUInt32 ((c.tickMS - s.ticksAccumulator) * 1000))]) := by
    rw [RunFixedFrame, if_pos h]
  refine ⟨h1, ?_, ?_, ?_, ?_⟩ <;> rw [h1] <;> simp

/-- The scheduler constants in the source's own unit (seconds):
tick duration 1/40 s = 25 ms, threshold 1 s. -/
def secondsConsts : SchedConsts := ⟨1 / 40, 1, by norm_num⟩

/-- A state with 10 ms (= 1/100 s) accumulated. -/
def tenMsSt : SchedSt := ⟨1 / 100, 0, 0, false⟩

/-- Witness for C7: with 10 ms accumulated out of a 25 ms tick, the poll
sleeps for the remaining 15 ms and performs nothing else. -/
theorem fixed_frame_sleeps_witness :
    tenMsSt.ticksAccumulator < secondsConsts.tickMS
  ∧ RunFixedFrame secondsConsts exampleCfg tenMsSt
      = (tenMsSt, [Ev.processMessages, Ev.sleep 15]) := by
  have h := fixed_frame_sleeps_when_below_tick secondsConsts exampleCfg tenMsSt
    (by norm_num [secondsConsts, tenMsSt])
  refine ⟨by norm_num [secondsConsts, tenMsSt], ?_⟩
  rw [h.1]
  norm_num [secondsConsts, tenMsSt, ratToUInt32]
  decide

/-! ### C3: phase order inside one logical tick (`Context::Tick`) -/

/-- Observable phases of `Context::Tick` (Context.cpp:1171-1212). -/
inductive TEv where
  | paletteUpdate
  | dateUpdate
  | introUpdate
  | titleTick
  | gameStateTick
  | discordTick
  | chatUpdate
  | scriptTick
  | evalQueue
  | uiTick
  deriving DecidableEq, Repr

/-- The global state read by `Context::Tick`: pause state, `gIntroState`,
the `SCREEN_FLAGS_TITLE_DEMO` bit of `gScreenFlags`, `gOpenRCT2Headless`,
and whether the Discord/scripting conditional subsystems are present. -/
structure TickCfg where
  paused : Bool
  introActive : Bool
  titleDemo : Bool
  headless : Bool
  discordOn : Bool
  scriptingOn : Bool
  deriving DecidableEq, Repr

/-- `Context::Tick` (Context.cpp:1171-1212), as the list of phases it
performs in program order. -/
def TickTrace (t : TickCfg) : List TEv :=
  (if !t.paused then [TEv.paletteUpdate] else [])
  ++ [TEv.dateUpdate]
  ++ (if t.introActive then [TEv.introUpdate]
      else if t.titleDemo && !t.headless then [TEv.titleTick]
      else [TEv.gameStateTick])
  ++ (if t.discordOn then [TEv.discordTick] else [])
  ++ [TEv.chatUpdate]
  ++ (if t.scriptingOn then [TEv.scriptTick] else [])
  ++ [TEv.evalQueue, TEv.uiTick]

/-- The intro/title sub-state is active (the guard of the first two branches
of `Context::Tick`). -/
def introTitleActive (t : TickCfg) : Bool :=
  t.introActive || (t.titleDemo && !t.headless)

/-- The single sub-state/simulation phase chosen by `Context::Tick`. -/
def branchEv (t : TickCfg) : TEv :=
  if t.introActive then TEv.introUpdate
  else if t.titleDemo && !t.headless then TEv.titleTick
  else TEv.gameStateTick

/-- The phases of `Context::Tick` preceding the branch. -/
def tickPreamble (t : TickCfg) : List TEv :=
  (if !t.paused then [TEv.paletteUpdate] else []) ++ [TEv.dateUpdate]

/-- The per-tick housekeeping phases following the branch: auxiliary
integrations, chat, scripting callbacks, pending console commands, UI tick. -/
def tickHousekeeping (t : TickCfg) : List TEv :=
  (if t.discordOn then [TEv.discordTick] else [])
  ++ [TEv.chatUpdate]
  ++ (if t.scriptingOn then [TEv.scriptTick] else [])
  ++ [TEv.evalQueue, TEv.uiTick]

/-- C3: Every logical tick performs exactly one of the intro-update,
title-tick or simulation-step phases — the simulation step exactly when the
intro/title sub-state is inactive — and then, regardless of which branch ran,
performs the per-tick housekeeping, which always follows the branch and
contains the chat, scripting-callback and console phases. -/
theorem tick_phase_order (t : TickCfg) :
    TickTrace t = tickPreamble t ++ [branchEv t] ++ tickHousekeeping t
  ∧ (branchEv t = TEv.gameStateTick ↔ introTitleActive t = false)
  ∧ (introTitleActive t = true →
      branchEv t = TEv.introUpdate ∨ branchEv t = TEv.titleTick)
  ∧ (TickTrace t).count (branchEv t) = 1
  ∧ TEv.chatUpdate ∈ tickHousekeeping t
  ∧ TEv.evalQueue ∈ tickHousekeeping t
  ∧ TEv.uiTick ∈ tickHousekeeping t
  ∧ TEv.introUpdate ∉ tickHousekeeping t
  ∧ TEv.titleTick ∉ tickHousekeeping t
  ∧ TEv.gameStateTick ∉ tickHousekeeping t := by
  rcases t with ⟨p, i, td, hl, dc, sc⟩
  cases p <;> cases i <;> cases td <;> cases hl <;> cases dc <;> cases sc <;> decide

/-! ### C4: render-mode switches reset the tweener -/

/-- Modelled from the spec: an entity with an authoritative simulation
position and a render-only position (§4.3; `EntityTweener`'s implementation
is not among the sources, only its call sites in `Context.cpp`). -/
structure Entity where
  id : Nat
  simPos : ℤ × ℤ × ℤ
  renderPos : ℤ × ℤ × ℤ
  deriving DecidableEq, Repr

/-- Modelled from the spec: the Entity Tweener's recorded interpolation
state — the "from" (pre-tick) and "to" (post-tick) position snapshots
(§4.3). -/
structure EntityTweener where
  fromSnap : List (Nat × (ℤ × ℤ × ℤ))
  toSnap : List (Nat × (ℤ × ℤ × ℤ))
  deriving DecidableEq, Repr

/-- Modelled from the spec: `EntityTweener::Restore` writes the "to"
(post-tick) position back into each snapshotted entity's render-only field,
discarding interpolation (§4.3). -/
def EntityTweener.Restore (tw : EntityTweener) (w : List Entity) : List Entity :=
  w.map fun e =>
    match tw.toSnap.lookup e.id with
    | some p => { e with renderPos := p }
    | none => e

/-- Modelled from the spec: `EntityTweener::Reset` clears all recorded
position pairs (§4.3). -/
def EntityTweener.Reset (_tw : EntityTweener) : EntityTweener := ⟨[], []⟩

/-- C4: Whenever the render mode changes between Fixed and Variable in either
direction, the poll performs the tween discontinuity reset — the trace begins
with the Restore/Reset pair (before any tick of that poll) — and the reset
restores every entity's render position to its authoritative post-tick
position and clears all recorded interpolation state.  The hypotheses state
what `PostTick` guarantees: the "to" snapshot holds the entities'
authoritative positions, and entities without a snapshot were never tweened. -/
theorem mode_switch_resets_tween (c : SchedConsts) (cfg : SchedCfg) (ts : ℚ)
    (s : SchedSt) (d : ℚ) (tw : EntityTweener) (w : List Entity)
    (hmode : s.variableFrame ≠ ShouldRunVariableFrame cfg)
    (hsnap : ∀ e ∈ w, ∀ p, tw.toSnap.lookup e.id = some p → p = e.simPos)
    (hplain : ∀ e ∈ w, tw.toSnap.lookup e.id = none → e.renderPos = e.simPos) :
    (RunFrame c cfg ts s d).2.take 2 = [Ev.restore, Ev.reset]
  ∧ (∀ e ∈ tw.Restore w, e.renderPos = e.simPos)
  ∧ tw.Reset = ⟨[], []⟩ := by
  refine ⟨?_, ?_, rfl⟩
  · have hb : (s.variableFrame != ShouldRunVariableFrame cfg) = true := by
      simpa using hmode
    simp only [RunFrame, hb, if_true]
    rfl
  · intro e he
    simp only [EntityTweener.Restore, List.mem_map] at he
    obtain ⟨e0, he0, rfl⟩ := he
    cases hl : tw.toSnap.lookup e0.id with
    | none => simp only [hl]; exact hplain e0 he0 hl
    | some p => simp only [hl]; exact hsnap e0 he0 p hl

/-- Witness for C4: switching from Variable to Fixed mode with one tweened
entity: its render position returns to the authoritative one and the
snapshots are cleared. -/
theorem mode_switch_resets_tween_witness :
    ((⟨0, 0, 0, true⟩ : SchedSt).variableFrame ≠ ShouldRunVariableFrame exampleCfg
      ∧ (∀ e ∈ [(⟨1, (5, 5, 5), (3, 3, 3)⟩ : Entity)], ∀ p,
          (⟨[], [(1, (5, 5, 5))]⟩ : EntityTweener).toSnap.lookup e.id = some p → p = e.simPos)
      ∧ (∀ e ∈ [(⟨1, (5, 5, 5), (3, 3, 3)⟩ : Entity)],
          (⟨[], [(1, (5, 5, 5))]⟩ : EntityTweener).toSnap.lookup e.id = none →
            e.renderPos = e.simPos))
  ∧ ((RunFrame exampleConsts exampleCfg 1 ⟨0, 0, 0, true⟩ 1).2.take 2
        = [Ev.restore, Ev.reset]
    ∧ (∀ e ∈ (⟨[], [(1, (5, 5, 5))]⟩ : EntityTweener).Restore
          [(⟨1, (5, 5, 5), (3, 3, 3)⟩ : Entity)], e.renderPos = e.simPos)
    ∧ (⟨[], [(1, (5, 5, 5))]⟩ : EntityTweener).Reset = ⟨[], []⟩) :=
  ⟨⟨by decide, by decide, by decide⟩,
    mode_switch_resets_tween exampleConsts exampleCfg 1 ⟨0, 0, 0, true⟩ 1
      ⟨[], [(1, (5, 5, 5))]⟩ [⟨1, (5, 5, 5), (3, 3, 3)⟩]
      (by decide) (by decide) (by decide)⟩

/-! ### C5: failed Query means Execute is never invoked -/

/-- Modelled from the spec: the error classification of an Action Result
(§3 "Action Result", §4.4). -/
inductive GAStatus where
  | ok
  | targetNotFound
  | disallowed
  deriving DecidableEq, Repr

/-- Modelled from the spec: a tagged action outcome (§3 "Action Result"). -/
structure GAResult where
  error : GAStatus
  deriving DecidableEq, Repr

def GAResult.succeeded (r : GAResult) : Bool := r.error == GAStatus.ok

/-- Modelled from the spec: the game state as far as the staff-orders action
is concerned — the staff entities (by identifier) and their current orders. -/
structure GameSt where
  staffOrders : List (Nat × Nat)
  deriving DecidableEq, Repr

/-- Modelled from the spec: an Action is a value with a read-only `Query`
and a mutating `Execute` on the game state (§3 "Action", §4.4). -/
structure GameAction where
  query : GameSt → GAResult
  execute : GameSt → GameSt × GAResult

/-- The payload of `StaffSetOrdersAction` (StaffSetOrdersAction.h:17-18):
a target sprite index and the orders byte. -/
structure StaffSetOrdersAction where
  spriteIndex : Nat
  ordersId : Nat
  deriving DecidableEq, Repr

/-- Modelled from the spec: `StaffSetOrdersAction::Query` (declared at
StaffSetOrdersAction.h:29; its body is not among the sources) checks
referential validity — a non-existent staff identifier fails with a
"target not found" classification (§4.4 Query, §8 example scenario). -/
def StaffSetOrdersAction.Query (a : StaffSetOrdersAction) (s : GameSt) : GAResult :=
  match s.staffOrders.lookup a.spriteIndex with
  | none => ⟨GAStatus.targetNotFound⟩
  | some _ => ⟨GAStatus.ok⟩

/-- Modelled from the spec: `StaffSetOrdersAction::Execute` (declared at
StaffSetOrdersAction.h:30) applies the orders to the target staff member. -/
def StaffSetOrdersAction.Execute (a : StaffSetOrdersAction) (s : GameSt) :
    GameSt × GAResult :=
  match s.staffOrders.lookup a.spriteIndex with
  | none => (s, ⟨GAStatus.targetNotFound⟩)
  | some _ =>
    (⟨s.staffOrders.map fun kv =>
        if kv.1 = a.spriteIndex then (kv.1, a.ordersId % 256) else kv⟩,
      ⟨GAStatus.ok⟩)

def StaffSetOrdersAction.toGameAction (a : StaffSetOrdersAction) : GameAction :=
  ⟨a.Query, a.Execute⟩

/-- Modelled from the spec: the dispatcher's local execution policy —
`Query` first; `Execute` only after the `Query` succeeded (§4.5).  Returns
the resulting state, the result, and whether `Execute` was invoked. -/
def dispatchAction (a : GameAction) (s : GameSt) : GameSt × GAResult × Bool :=
  let q := a.query s
  if q.succeeded then
    let r := a.execute s
    (r.1, r.2, true)
  else
    (s, q, false)

/-- C5: For every action and every game state, if the action's Query fails
then Execute is never invoked and the game state is unchanged; in particular
a `StaffSetOrdersAction` targeting a non-existent staff identifier fails
Query with the "target not found" classification and Execute is never
called. -/
theorem query_fail_means_no_execute (a : GameAction) (s : GameSt)
    (hq : (a.query s).succeeded = false) :
    dispatchAction a s = (s, a.query s, false)
  ∧ ∀ sa : StaffSetOrdersAction, s.staffOrders.lookup sa.spriteIndex = none →
      sa.Query s = ⟨GAStatus.targetNotFound⟩
      ∧ dispatchAction sa.toGameAction s = (s, ⟨GAStatus.targetNotFound⟩, false) := by
  constructor
  · rw [dispatchAction]
    simp [hq]
  · intro sa hnone
    have hq2 : sa.Query s = ⟨GAStatus.targetNotFound⟩ := by
      rw [StaffSetOrdersAction.Query, hnone]
    refine ⟨hq2, ?_⟩
    rw [dispatchAction]
    simp [StaffSetOrdersAction.toGameAction, hq2, GAResult.succeeded]

/-- Witness for C5: dispatching a staff-orders action for staff id 42
against a state with no staff at all. -/
theorem query_fail_means_no_execute_witness :
    (((⟨42, 1⟩ : StaffSetOrdersAction).toGameAction.query ⟨[(7, 0)]⟩).succeeded = false)
  ∧ (dispatchAction (⟨42, 1⟩ : StaffSetOrdersAction).toGameAction ⟨[(7, 0)]⟩
        = (⟨[(7, 0)]⟩, (⟨42, 1⟩ : StaffSetOrdersAction).toGameAction.query ⟨[(7, 0)]⟩, false)
    ∧ ∀ sa : StaffSetOrdersAction,
        (⟨[(7, 0)]⟩ : GameSt).staffOrders.lookup sa.spriteIndex = none →
          sa.Query ⟨[(7, 0)]⟩ = ⟨GAStatus.targetNotFound⟩
          ∧ dispatchAction sa.toGameAction ⟨[(7, 0)]⟩
              = (⟨[(7, 0)]⟩, ⟨GAStatus.targetNotFound⟩, false)) :=
  ⟨by decide,
    query_fail_means_no_execute (⟨42, 1⟩ : StaffSetOrdersAction).toGameAction
      ⟨[(7, 0)]⟩ (by decide)⟩

/-! ### C6: the termination flag `_finished` -/

/-- The program steps that touch `Context::_finished`:
`Context::Finish` sets it (Context.cpp:321-324), `RunGameLoop` entry
unconditionally resets it (`_finished = false`, Context.cpp:1032), and a loop
iteration (`RunFrame`) never writes it. -/
inductive LoopEv where
  | finish
  | enterLoop
  | frame
  deriving DecidableEq, Repr

/-- The effect of each step on the `_finished` flag. -/
def stepFinished (fin : Bool) (e : LoopEv) : Bool :=
  match e with
  | LoopEv.finish => true
  | LoopEv.enterLoop => false
  | LoopEv.frame => fin

/-- The `_finished` flag after a sequence of steps. -/
def runFinished (fin : Bool) (evs : List LoopEv) : Bool :=
  evs.foldl stepFinished fin

/-- Counterexample to C6 as stated: `Context::Finish` is a public method, and
if it runs before `RunGameLoop` starts, the unconditional `_finished = false`
at the loop's entry (Context.cpp:1032) assigns false to the flag after it had
been set to true — so the flag is not write-once over whole executions. -/
theorem finished_flag_cleared_counterexample :
    runFinished false [LoopEv.finish] = true
  ∧ runFinished false [LoopEv.finish, LoopEv.enterLoop] = false := by
  decide

/-- C6 (amended): once the game loop has begun — i.e. after `RunGameLoop`'s
single unconditional reset at entry, which precedes every loop iteration —
the flag is write-once: along any sequence of steps that does not re-enter
the loop, once the flag is set nothing clears it, so an in-progress shutdown
is never resumed. -/
theorem finished_flag_write_once_in_loop (fin : Bool) (evs : List LoopEv)
    (hnoenter : LoopEv.enterLoop ∉ evs) (hfin : fin = true) :
    runFinished fin evs = true := by
  induction evs generalizing fin with
  | nil => simpa [runFinished] using hfin
  | cons e evs ih =>
    have he : e ≠ LoopEv.enterLoop := fun h => hnoenter (by simp [h])
    have hrest : LoopEv.enterLoop ∉ evs := fun h => hnoenter (by simp [h])
    rw [runFinished, List.foldl_cons]
    cases e with
    | finish => exact ih _ hrest rfl
    | enterLoop => exact absurd rfl he
    | frame => exact ih _ hrest hfin

/-- Witness for the amended C6: after the flag is set, a `Finish` call and a
loop iteration leave it set. -/
theorem finished_flag_write_once_witness :
    (LoopEv.enterLoop ∉ [LoopEv.finish, LoopEv.frame] ∧ true = true)
  ∧ runFinished true [LoopEv.finish, LoopEv.frame] = true :=
  ⟨⟨by decide, rfl⟩,
    finished_flag_write_once_in_loop true [LoopEv.finish, LoopEv.frame]
      (by decide) rfl⟩

/-! ### C10: `Context::Initialise` runs at most once -/

/-- The `_initialised` guard of `Context` (Context.cpp:132). -/
structure CtxInitSt where
  initialised : Bool
  deriving DecidableEq, Repr

/-- `Context::Initialise` (Context.cpp:332-338): a second call is rejected by
throwing `std::runtime_error("Context already initialised.")` before any
initialisation work; otherwise the guard is set and initialisation
proceeds. -/
def Initialise (s : CtxInitSt) : Except String CtxInitSt :=
  if s.initialised then
    Except.error "Context already initialised."
  else
    Except.ok { s with initialised := true }

/-- C10: Calling `Initialise` a second time on the same Context is rejected
with the "Context already initialised." runtime error before performing any
initialisation work, so the initialisation sequence runs at most once per
instance. -/
theorem initialise_at_most_once (s s' : CtxInitSt)
    (h : Initialise s = Except.ok s') :
    Initialise s' = Except.error "Context already initialised."
  ∧ ∀ t : CtxInitSt, t.initialised = true →
      Initialise t = Except.error "Context already initialised." := by
  have hs : s.initialised = false := by
    by_contra hc
    rw [Initialise, if_pos (by simpa using hc)] at h
    exact Except.noConfusion h
  have hs' : s' = { s with initialised := true } := by
    rw [Initialise, if_neg (by simp [hs])] at h
    exact (Except.ok.injEq _ _).mp h |>.symm
  constructor
  · rw [hs', Initialise, if_pos rfl]
  · intro t ht
    rw [Initialise, if_pos (by simp [ht])]

/-- Witness for C10: initialising a fresh Context succeeds; the second call
errors. -/
theorem initialise_at_most_once_witness :
    Initialise ⟨false⟩ = Except.ok ⟨true⟩
  ∧ (Initialise ⟨true⟩ = Except.error "Context already initialised."
    ∧ ∀ t : CtxInitSt, t.initialised = true →
        Initialise t = Except.error "Context already initialised.") :=
  ⟨rfl, initialise_at_most_once ⟨false⟩ ⟨true⟩ rfl⟩

end OpenRCT2
